import Mathlib

/-!
Verification of `easy-dictate` (Rust, Tauri app for dictation via the
ElevenLabs realtime speech-to-text WebSocket API).

This file gives a shallow embedding of the parts of the program that the
claims concern:

* `src-tauri/src/elevenlabs_streaming.rs` — the gated streaming client
  (`ElevenLabsStreamingClient`): `connect`, `send_audio_chunk`, `open_gate`,
  `close_gate`, `close_gate_and_commit`, `disconnect`, `is_connected`,
  `has_audio_since_open`.  The client is modelled as a sequential state
  machine: each public method becomes a function from the client state (plus
  the environment inputs it consumes, such as whether the WebSocket handshake
  succeeds or whether the commit acknowledgement arrives before the timeout)
  to a result, a new state, and the list of WebSocket messages sent.

* `src-tauri/src/audio_stream.rs` — the capture-format dispatch
  (`build_streaming_input`), the per-frame downmix loop of `build_stream`,
  and the float converter `convert_f32_to_i16`.

Machine integers are modelled as `Int` with explicit wrap-around
(`% 2^32`, `% 2^16`) exactly where the Rust code can wrap; Rust's `i32 /`
is truncation toward zero, modelled by `Int.div`.
-/

namespace EasyDictate

/-- Base64 standard alphabet, as in `base64::engine::general_purpose::STANDARD`. -/
def base64Alphabet : List Char :=
  "ABCDEFGHIJKLMNOPQRSTUVWXYZabcdefghijklmnopqrstuvwxyz0123456789+/".toList

/-- Character for a 6-bit group. -/
def b64Char (n : Nat) : Char := base64Alphabet.getD n 'A'

/-- Standard base64 encoding (with `=` padding) of a byte list. -/
def base64Encode : List Nat → List Char
  | [] => []
  | [a] => [b64Char (a / 4), b64Char ((a % 4) * 16), '=', '=']
  | [a, b] => [b64Char (a / 4), b64Char ((a % 4) * 16 + b / 16),
               b64Char ((b % 16) * 4), '=']
  | a :: b :: c :: rest =>
      b64Char (a / 4) :: b64Char ((a % 4) * 16 + b / 16) ::
      b64Char ((b % 16) * 4 + c / 64) :: b64Char (c % 64) :: base64Encode rest

/-- `struct ConnectionConfig` from elevenlabs_streaming.rs. -/
structure ConnectionConfig where
  api_key : String
  sample_rate : Nat
  language_code : String
deriving DecidableEq

/-- `struct AudioChunkMessage` from elevenlabs_streaming.rs: the JSON payload
sent over the WebSocket for audio (and commit) messages. -/
structure AudioChunkMessage where
  message_type : String
  audio_base_64 : String
  sample_rate : Nat
  commit : Bool
deriving DecidableEq

/-- A message sent on the WebSocket by the client. -/
inductive WsMsg where
  | text (m : AudioChunkMessage)
  | close (code : Nat) (reason : String)
  | closeNone
  | ping
deriving DecidableEq

/-- `struct StreamingConnection` from elevenlabs_streaming.rs, restricted to
the fields the public methods read or write (the write sink, task handles and
app handle carry no state the claims mention; the atomics become `Bool`). -/
structure StreamingConnection where
  is_transmitting : Bool
  sent_since_open : Bool
  is_committing : Bool
  is_alive : Bool
  sample_rate : Nat
  audio_format : String
deriving DecidableEq

/-- The state of `ElevenLabsStreamingClient`: the two `Arc<Mutex<Option<_>>>`
fields. -/
structure ElevenLabsStreamingClient where
  connection : Option StreamingConnection
  last_config : Option ConnectionConfig
deriving DecidableEq

/-- The state of a freshly constructed client (`ElevenLabsStreamingClient::new`). -/
def ElevenLabsStreamingClient.new : ElevenLabsStreamingClient :=
  { connection := none, last_config := none }

/-- The `match sample_rate` in `connect` choosing the audio format string. -/
def audioFormatFor (sample_rate : Nat) : String :=
  match sample_rate with
  | 8000 => "pcm_8000"
  | 16000 => "pcm_16000"
  | 22050 => "pcm_22050"
  | 24000 => "pcm_24000"
  | 44100 => "pcm_44100"
  | 48000 => "pcm_48000"
  | _ => "pcm_16000"

namespace ElevenLabsStreamingClient

/-- The part of `ElevenLabsStreamingClient::connect` after the
live-connection check: the unconditional save of `last_config` (source lines
157-165, before the handshake), the audio-format choice, then the handshake;
only on handshake success is a fresh `StreamingConnection` stored (gate
closed, nothing sent, not committing, alive). -/
def connectAfterCheck (st : ElevenLabsStreamingClient) (api_key : String)
    (sample_rate : Nat) (language_code : String) (handshakeOk : Bool) :
    Except String Unit × ElevenLabsStreamingClient :=
  let st := { st with
    last_config := some ⟨api_key, sample_rate, language_code⟩ }
  let audio_format := audioFormatFor sample_rate
  let fresh : StreamingConnection :=
    { is_transmitting := false
      sent_since_open := false
      is_committing := false
      is_alive := true
      sample_rate := sample_rate
      audio_format := audio_format }
  if handshakeOk then
    (.ok (), { st with connection := some fresh })
  else
    (.error "Failed to connect to ElevenLabs WebSocket", st)

/-- `ElevenLabsStreamingClient::connect`.  `handshakeOk` is the environment's
answer to the `connect_async` WebSocket handshake.  Mirrors the source order:
first the live-connection check (rejecting if a live connection exists,
discarding a dead one), then `connectAfterCheck`. -/
def connect (st : ElevenLabsStreamingClient) (api_key : String)
    (sample_rate : Nat) (language_code : String) (handshakeOk : Bool) :
    Except String Unit × ElevenLabsStreamingClient :=
  match st.connection with
  | some conn =>
    if conn.is_alive then
      (.error "Connection already exists. Disconnect first.", st)
    else
      connectAfterCheck { st with connection := none }
        api_key sample_rate language_code handshakeOk
  | none => connectAfterCheck st api_key sample_rate language_code handshakeOk

/-- `ElevenLabsStreamingClient::send_audio_chunk`: error when not connected or
dead; silent no-op when the gate is closed; otherwise mark `sent_since_open`
and send an `input_audio_chunk` message with `commit:false`. -/
def send_audio_chunk (st : ElevenLabsStreamingClient) (pcm_data : List Nat) :
    Except String Unit × ElevenLabsStreamingClient × List WsMsg :=
  match st.connection with
  | none => (.error "Not connected. Call connect() first.", st, [])
  | some conn =>
    if !conn.is_alive then
      (.error "Connection is dead", st, [])
    else if !conn.is_transmitting then
      (.ok (), st, [])
    else
      let conn := { conn with sent_since_open := true }
      let message : AudioChunkMessage :=
        { message_type := "input_audio_chunk"
          audio_base_64 := String.mk (base64Encode pcm_data)
          sample_rate := conn.sample_rate
          commit := false }
      (.ok (), { st with connection := some conn }, [.text message])

/-- `ElevenLabsStreamingClient::open_gate`: reset `sent_since_open`, then set
`is_transmitting`. -/
def open_gate (st : ElevenLabsStreamingClient) :
    Except String Unit × ElevenLabsStreamingClient :=
  match st.connection with
  | none => (.error "Not connected", st)
  | some conn =>
    if !conn.is_alive then
      (.error "Connection is dead", st)
    else
      let conn := { conn with sent_since_open := false, is_transmitting := true }
      (.ok (), { st with connection := some conn })

/-- `ElevenLabsStreamingClient::close_gate`: close the gate, keep the session. -/
def close_gate (st : ElevenLabsStreamingClient) :
    Except String Unit × ElevenLabsStreamingClient :=
  match st.connection with
  | none => (.error "Not connected", st)
  | some conn =>
    if !conn.is_alive then
      (.error "Connection is dead", st)
    else
      let conn := { conn with is_transmitting := false }
      (.ok (), { st with connection := some conn })

/-- `ElevenLabsStreamingClient::close_gate_and_commit`.  `commitAck` is
whether the `committed_transcript` notification arrives before the 3 s
timeout; on timeout only a UI error event is emitted, the return value and
state change are the same.  In the no-audio branch the method returns `Ok`
with the connection kept (gate closed, `is_committing` back to false).  In
the commit branch it sends a 1 ms silence chunk with `commit:true`, waits,
then takes the connection (dropping it, `is_alive := false` on the dropped
value), sends `Close(4001, "ContextReset")`, and returns `Ok`. -/
def close_gate_and_commit (st : ElevenLabsStreamingClient) (commitAck : Bool) :
    Except String Unit × ElevenLabsStreamingClient × List WsMsg :=
  match st.connection with
  | none => (.error "Not connected", st, [])
  | some conn =>
    if !conn.is_alive then
      (.error "Connection is dead", st, [])
    else
      let conn := { conn with is_transmitting := false, is_committing := true }
      if !conn.sent_since_open then
        let conn := { conn with is_committing := false }
        (.ok (), { st with connection := some conn }, [])
      else
        let duration_ms : Nat := 1
        let samples := conn.sample_rate * duration_ms / 1000
        let silence_bytes : List Nat := List.replicate (samples * 2) 0
        let message : AudioChunkMessage :=
          { message_type := "input_audio_chunk"
            audio_base_64 := String.mk (base64Encode silence_bytes)
            sample_rate := conn.sample_rate
            commit := true }
        let _ := commitAck
        (.ok (), { st with connection := none },
          [.text message, .close 4001 "ContextReset"])

/-- `ElevenLabsStreamingClient::disconnect`. -/
def disconnect (st : ElevenLabsStreamingClient) :
    Except String Unit × ElevenLabsStreamingClient × List WsMsg :=
  match st.connection with
  | none => (.ok (), st, [])
  | some _ => (.ok (), { st with connection := none }, [.closeNone])

/-- `ElevenLabsStreamingClient::is_connected`. -/
def is_connected (st : ElevenLabsStreamingClient) : Bool :=
  match st.connection with
  | some conn => conn.is_alive
  | none => false

/-- `ElevenLabsStreamingClient::has_audio_since_open`. -/
def has_audio_since_open (st : ElevenLabsStreamingClient) : Bool :=
  match st.connection with
  | some conn => conn.sent_since_open
  | none => false

/-- `ElevenLabsStreamingClient::is_committing`. -/
def is_committing (st : ElevenLabsStreamingClient) : Bool :=
  match st.connection with
  | some conn => conn.is_committing
  | none => false

end ElevenLabsStreamingClient

/-! ### Reachable client states

A session interleaves the public methods in any order; the environment
chooses the method arguments, whether a handshake succeeds and whether a
commit acknowledgement arrives.  `Op` is one method call, `step` its effect
on the client state. -/

/-- One public method call on the client, with the environment inputs it
consumes. -/
inductive Op where
  | connect (api_key : String) (sample_rate : Nat) (language_code : String)
      (handshakeOk : Bool)
  | send (pcm_data : List Nat)
  | openGate
  | closeGate
  | closeCommit (commitAck : Bool)
  | disconnect

/-- The state after one method call (results and sent messages dropped). -/
def step (st : ElevenLabsStreamingClient) : Op → ElevenLabsStreamingClient
  | .connect k sr l ok => (st.connect k sr l ok).2
  | .send d => (st.send_audio_chunk d).2.1
  | .openGate => st.open_gate.2
  | .closeGate => st.close_gate.2
  | .closeCommit a => (st.close_gate_and_commit a).2.1
  | .disconnect => st.disconnect.2.1

/-- Whether the connection's gate is currently open (`is_transmitting`). -/
def gate_open (st : ElevenLabsStreamingClient) : Bool :=
  match st.connection with
  | some conn => conn.is_transmitting
  | none => false

/-- The client state instrumented with one history observer:
`gate_true_since_reset` records whether `is_transmitting` has been true at
some point since `sent_since_open` was last reset (`open_gate` is the only
reset, and it sets `is_transmitting` in the same call). -/
structure GState where
  base : ElevenLabsStreamingClient
  gate_true_since_reset : Bool

/-- History-observer update: `open_gate` on a live connection both resets
`sent_since_open` and sets `is_transmitting`, so the observer becomes true;
no other call resets `sent_since_open`, so the observer is otherwise kept. -/
def ghostUpdate (gs : GState) : Op → Bool
  | .openGate =>
    match gs.base.connection with
    | some conn => if conn.is_alive then true else gs.gate_true_since_reset
    | none => gs.gate_true_since_reset
  | _ => gs.gate_true_since_reset

/-- One step of the instrumented system; its `base` component is exactly
`step`. -/
def gstep (gs : GState) (op : Op) : GState :=
  { base := step gs.base op, gate_true_since_reset := ghostUpdate gs op }

/-- Instrumented states reachable from a fresh client by any interleaving of
method calls. -/
inductive GReachable : GState → Prop
  | init : GReachable ⟨ElevenLabsStreamingClient.new, false⟩
  | step {gs : GState} (h : GReachable gs) (op : Op) : GReachable (gstep gs op)

/-- The gate invariant: audio has been sent since the last gate-open only if
the gate has been open (`is_transmitting` true) since that reset, and an open
gate itself implies the observer. -/
def GateInv (gs : GState) : Prop :=
  (gs.base.has_audio_since_open = true → gs.gate_true_since_reset = true) ∧
  (gate_open gs.base = true → gs.gate_true_since_reset = true)

/-! ### audio_stream.rs: capture formats, downmix and float conversion -/

/-- `cpal::SampleFormat`: every sample format cpal can report. -/
inductive SampleFormat where
  | I8 | I16 | I32 | I64
  | U8 | U16 | U32 | U64
  | F32 | F64
deriving DecidableEq

/-- Which per-sample converter `build_streaming_input` wires into
`build_stream` for an accepted format. -/
inductive SampleConverter where
  | f32conv   -- `convert_f32_to_i16`
  | f64conv   -- `|s| convert_f32_to_i16(s as f32)`
  | i16conv   -- `|s| s`
  | i32conv   -- `|s| (s >> 16) as i16`
  | i8conv    -- `|s| (s as i16) << 8`
  | u16conv   -- `|s| (s as i32 - 32768) as i16`
deriving DecidableEq

/-- The `match sample_format` dispatch of `build_streaming_input`
(audio_stream.rs lines 130-138): the formats with a `build_stream` arm
succeed at capture-start; every other format is the `Err("Unsupported sample
format")` arm. -/
def build_streaming_input (sample_format : SampleFormat) :
    Except String SampleConverter :=
  match sample_format with
  | .F32 => .ok .f32conv
  | .F64 => .ok .f64conv
  | .I16 => .ok .i16conv
  | .I32 => .ok .i32conv
  | .I8 => .ok .i8conv
  | .U16 => .ok .u16conv
  | _ => .error "Unsupported sample format"

/-- Wrap an integer into two's-complement 32-bit range, as a Rust `i32`
addition does on overflow (release-mode wrapping). -/
def wrap32 (x : Int) : Int := (x + 2 ^ 31) % 2 ^ 32 - 2 ^ 31

/-- Wrap an integer into two's-complement 16-bit range, as Rust's `as i16`
cast of an `i32` does. -/
def wrap16 (x : Int) : Int := (x + 2 ^ 15) % 2 ^ 16 - 2 ^ 15

/-- The per-frame accumulator loop of `build_stream` (audio_stream.rs lines
159-162): `sum: i32 = 0; for &sample in frame { sum += convert(sample) as
i32 }`.  The frame holds the already-converted `i16` values. -/
def frameSum (frame : List Int) : Int :=
  frame.foldl (fun sum s => wrap32 (sum + s)) 0

/-- `(sum / channels as i32) as i16` (audio_stream.rs line 163): Rust `i32`
division truncates toward zero (`Int.tdiv`), and the `as i16` cast wraps. -/
def frameToMono (frame : List Int) : Int :=
  wrap16 (Int.tdiv (frameSum frame) (frame.length : Int))

/-- `mono_sample.to_le_bytes()` (audio_stream.rs line 164): the two bytes of
the `i16` two's-complement representation, little-endian. -/
def monoToLeBytes (m : Int) : List Nat :=
  let u := (m % 2 ^ 16).toNat
  [u % 2 ^ 8, u / 2 ^ 8]

/-- One frame's contribution to the output buffer: the mono sample's two
little-endian bytes. -/
def processFrame (frame : List Int) : List Nat :=
  monoToLeBytes (frameToMono frame)

/-- `|s| s` for `i16` input. -/
def convert_i16 (s : Int) : Int := s

/-- `|s| (s >> 16) as i16` for `i32` input: arithmetic shift right by 16. -/
def convert_i32 (s : Int) : Int := wrap16 (s / 2 ^ 16)

/-- `|s| (s as i16) << 8` for `i8` input. -/
def convert_i8 (s : Int) : Int := wrap16 (s * 2 ^ 8)

/-- `|s| (s as i32 - 32768) as i16` for `u16` input. -/
def convert_u16 (s : Int) : Int := wrap16 (s - 32768)

/-- An `f32` value as the source observes it: NaN, an infinity, or a finite
value, the latter carried exactly as a rational.  The two operations the
converter performs — `clamp(-1.0, 1.0)` and multiplication by the exactly
representable constant `32767.0` — are modelled with exact rational
arithmetic; for the properties proved here (output range and the saturation
of out-of-range inputs) this is faithful, because `32767.0` and `±1.0` are
exact `f32` values and round-to-nearest never moves a product across an
exactly representable bound. -/
inductive F32 where
  | nan
  | posInf
  | negInf
  | fin (q : ℚ)
deriving DecidableEq

/-- Rust `f32` `<` (false on any NaN operand). -/
def F32.lt : F32 → F32 → Bool
  | .nan, _ => false
  | _, .nan => false
  | .negInf, .negInf => false
  | .negInf, _ => true
  | _, .negInf => false
  | .posInf, _ => false
  | .fin _, .posInf => true
  | .fin a, .fin b => decide (a < b)

/-- Rust `f32::clamp(min, max)`: `if self < min { min } else if self > max
{ max } else { self }` — NaN propagates (both comparisons false). -/
def F32.clamp (s lo hi : F32) : F32 :=
  if F32.lt s lo then lo
  else if F32.lt hi s then hi
  else s

/-- Multiplication of an `f32` by the positive finite constant `32767.0`
(`i16::MAX as f32`), modelled exactly. -/
def F32.mul32767 : F32 → F32
  | .nan => .nan
  | .posInf => .posInf
  | .negInf => .negInf
  | .fin q => .fin (q * 32767)

/-- Truncation of a rational toward zero (what Rust's float-to-int `as`
performs on the value before saturation). -/
def ratTrunc (q : ℚ) : Int :=
  if 0 ≤ q then ⌊q⌋ else -⌊-q⌋

/-- Rust `as i16` on an `f32`: saturating cast — NaN to 0, out-of-range and
infinite values to the nearest `i16` bound, finite values truncated toward
zero. -/
def F32.asI16 : F32 → Int
  | .nan => 0
  | .posInf => 32767
  | .negInf => -32768
  | .fin q =>
    let t := ratTrunc q
    if t < -32768 then -32768
    else if 32767 < t then 32767
    else t

/-- `convert_f32_to_i16` (audio_stream.rs lines 195-198):
`let clamped = sample.clamp(-1.0, 1.0); (clamped * i16::MAX as f32) as i16`. -/
def convert_f32_to_i16 (sample : F32) : Int :=
  let clamped := F32.clamp sample (.fin (-1)) (.fin 1)
  F32.asI16 (F32.mul32767 clamped)

/-- `sample >= 1.0` holds (as a Rust float comparison, so false for NaN). -/
def F32.geOne : F32 → Bool
  | .posInf => true
  | .fin q => decide (1 ≤ q)
  | _ => false

/-- `sample <= -1.0` holds (false for NaN). -/
def F32.leNegOne : F32 → Bool
  | .negInf => true
  | .fin q => decide (q ≤ -1)
  | _ => false

/-! ## Helper lemmas -/

/-- The gate invariant is preserved by every single method call. -/
theorem gateInv_step (gs : GState) (h : GateInv gs) (op : Op) :
    GateInv (gstep gs op) := by
  obtain ⟨st, g⟩ := gs
  obtain ⟨h1, h2⟩ := h
  rcases hc : st.connection with _ | conn <;>
  cases op <;>
  simp_all [GateInv, gstep, step, ghostUpdate, gate_open,
    ElevenLabsStreamingClient.has_audio_since_open,
    ElevenLabsStreamingClient.connect,
    ElevenLabsStreamingClient.connectAfterCheck,
    ElevenLabsStreamingClient.send_audio_chunk,
    ElevenLabsStreamingClient.open_gate,
    ElevenLabsStreamingClient.close_gate,
    ElevenLabsStreamingClient.close_gate_and_commit,
    ElevenLabsStreamingClient.disconnect, hc] <;>
  split_ifs <;> simp_all

/-- The gate invariant holds in every reachable instrumented state. -/
theorem gateInv_reachable (gs : GState) (h : GReachable gs) : GateInv gs := by
  induction h with
  | init =>
    constructor <;> intro hx <;>
      simp [ElevenLabsStreamingClient.has_audio_since_open, gate_open,
        ElevenLabsStreamingClient.new] at hx
  | step h op ih => exact gateInv_step _ ih op

/-- Truncating division bound: a value at most `B * n` divides (toward zero)
to at most `B`. -/
theorem tdiv_le_of_le_mul {s n B : Int} (hn : 0 < n) (hB : 0 ≤ B) (h : s ≤ B * n) :
    s.tdiv n ≤ B := by
  rcases le_or_lt 0 s with hs | hs
  · rw [Int.tdiv_eq_ediv hs (le_of_lt hn)]
    calc s / n ≤ (B * n) / n := Int.ediv_le_ediv hn h
    _ = B := Int.mul_ediv_cancel _ (by omega)
  · have h2 : (0:Int) ≤ -s := by omega
    have h3 := Int.tdiv_nonneg h2 (le_of_lt hn)
    rw [Int.neg_tdiv] at h3
    omega

/-- Truncating division bound: a value at least `-(B * n)` divides (toward
zero) to at least `-B`. -/
theorem neg_le_tdiv_of_le {s n B : Int} (hn : 0 < n) (hB : 0 ≤ B) (h : -(B * n) ≤ s) :
    -B ≤ s.tdiv n := by
  rcases le_or_lt 0 s with hs | hs
  · have := Int.tdiv_nonneg hs (le_of_lt hn); omega
  · have h1 : -s ≤ B * n := by omega
    have h2 : (-s).tdiv n ≤ B := tdiv_le_of_le_mul hn hB h1
    rw [Int.neg_tdiv] at h2
    omega

/-- `wrap32` is the identity on the `i32` range. -/
theorem wrap32_eq_self {x : Int} (h1 : -(2 ^ 31) ≤ x) (h2 : x ≤ 2 ^ 31 - 1) :
    wrap32 x = x := by
  unfold wrap32
  omega

/-- `wrap16` is the identity on the `i16` range. -/
theorem wrap16_eq_self {x : Int} (h1 : -(2 ^ 15) ≤ x) (h2 : x ≤ 2 ^ 15 - 1) :
    wrap16 x = x := by
  unfold wrap16
  omega

/-- The wrapping `i32` accumulation of at most 65535 `i16`-range values
never actually wraps: it computes the exact sum. -/
theorem foldl_wrap32_eq (l : List Int) (acc : Int)
    (hb : ∀ x ∈ l, -32768 ≤ x ∧ x ≤ 32767)
    (hlo : -(2 ^ 31) + 32768 * l.length ≤ acc)
    (hhi : acc ≤ 2 ^ 31 - 1 - 32767 * l.length) :
    l.foldl (fun sum s => wrap32 (sum + s)) acc = acc + l.sum := by
  induction l generalizing acc with
  | nil => simp
  | cons x xs ih =>
    have hx := hb x (by simp)
    have hxs : ∀ y ∈ xs, -32768 ≤ y ∧ y ≤ 32767 := fun y hy => hb y (by simp [hy])
    have hlen : (x :: xs).length = xs.length + 1 := by simp
    have hw : wrap32 (acc + x) = acc + x := by
      apply wrap32_eq_self <;> omega
    rw [List.foldl_cons, hw, ih (acc + x) hxs (by omega) (by omega), List.sum_cons]
    ring

/-- The sum of `i16`-range values is bounded by `±2^15` times the length. -/
theorem list_sum_bounds (l : List Int) (hb : ∀ x ∈ l, -32768 ≤ x ∧ x ≤ 32767) :
    -32768 * l.length ≤ l.sum ∧ l.sum ≤ 32767 * l.length := by
  induction l with
  | nil => simp
  | cons x xs ih =>
    have hx := hb x (by simp)
    have hxs : ∀ y ∈ xs, -32768 ≤ y ∧ y ≤ 32767 := fun y hy => hb y (by simp [hy])
    have := ih hxs
    simp only [List.sum_cons, List.length_cons]
    constructor <;> push_cast <;> omega

/-- Rational truncation toward zero stays below a nonneg integer bound. -/
theorem ratTrunc_le_of_le {q : ℚ} {B : ℤ} (hB : 0 ≤ B) (h : q ≤ (B : ℚ)) :
    ratTrunc q ≤ B := by
  unfold ratTrunc
  split_ifs with h0
  · calc ⌊q⌋ ≤ ⌊(B : ℚ)⌋ := Int.floor_mono h
    _ = B := Int.floor_intCast B
  · have : (0:ℤ) ≤ ⌊-q⌋ := Int.floor_nonneg.mpr (by linarith)
    omega

/-- Rational truncation toward zero stays above a nonpos integer bound. -/
theorem neg_le_ratTrunc_of_le {q : ℚ} {B : ℤ} (hB : 0 ≤ B) (h : (-B : ℚ) ≤ q) :
    -B ≤ ratTrunc q := by
  unfold ratTrunc
  split_ifs with h0
  · have : (0:ℤ) ≤ ⌊q⌋ := Int.floor_nonneg.mpr h0
    omega
  · have h1 : (-q : ℚ) ≤ (B : ℚ) := by linarith
    have h2 : ⌊-q⌋ ≤ B := by
      calc ⌊-q⌋ ≤ ⌊(B : ℚ)⌋ := Int.floor_mono h1
      _ = B := Int.floor_intCast B
    omega

/-! ## Claims -/

/-- C1 (corrected, counterexample): on the no-audio short-circuit path the
claim fails.  Starting from a fresh client, after a successful `connect` and
an `open_gate` with no audio sent, `close_gate_and_commit` returns success
but the session is kept: `is_connected()` is still true and a subsequent
`connect` is rejected with "Connection already exists". -/
theorem c1_counterexample_short_circuit_keeps_connection :
    ((((ElevenLabsStreamingClient.new.connect "k" 16000 "en" true).2.open_gate).2.close_gate_and_commit true).1 = .ok ()) ∧
    ((((ElevenLabsStreamingClient.new.connect "k" 16000 "en" true).2.open_gate).2.close_gate_and_commit true).2.1.is_connected = true) ∧
    (((((ElevenLabsStreamingClient.new.connect "k" 16000 "en" true).2.open_gate).2.close_gate_and_commit true).2.1.connect "k" 16000 "en" true).1 =
      .error "Connection already exists. Disconnect first.") :=
  ⟨rfl, rfl, rfl⟩

/-- C1 (amended): for every live session on which `close_gate_and_commit`
takes the commit path (audio was sent since the last gate open), whether the
commit acknowledgement arrived or timed out, the call returns success,
`is_connected()` is false afterwards, and a subsequent `connect` (whose
handshake succeeds) succeeds.  In the no-audio short-circuit the session is
instead retained (see the counterexample). -/
theorem c1_commit_path_ends_connection
    (st : ElevenLabsStreamingClient) (conn : StreamingConnection)
    (hc : st.connection = some conn) (halive : conn.is_alive = true)
    (hsent : conn.sent_since_open = true) (commitAck : Bool) :
    (st.close_gate_and_commit commitAck).1 = .ok () ∧
    ((st.close_gate_and_commit commitAck).2.1).is_connected = false ∧
    (∀ (k : String) (sr : Nat) (l : String),
      (((st.close_gate_and_commit commitAck).2.1).connect k sr l true).1 = .ok ()) := by
  simp [ElevenLabsStreamingClient.close_gate_and_commit, hc, halive, hsent,
    ElevenLabsStreamingClient.is_connected, ElevenLabsStreamingClient.connect,
    ElevenLabsStreamingClient.connectAfterCheck]

/-- C1 witness: the amended statement at a concrete live session with audio
sent, for both acknowledgement outcomes. -/
theorem c1_commit_path_ends_connection_witness :
    (((⟨some ⟨false, true, false, true, 16000, "pcm_16000"⟩, none⟩ : ElevenLabsStreamingClient).close_gate_and_commit true).1 = .ok ()) ∧
    ((((⟨some ⟨false, true, false, true, 16000, "pcm_16000"⟩, none⟩ : ElevenLabsStreamingClient).close_gate_and_commit true).2.1).is_connected = false) ∧
    (((((⟨some ⟨false, true, false, true, 16000, "pcm_16000"⟩, none⟩ : ElevenLabsStreamingClient).close_gate_and_commit false).2.1).connect "k" 16000 "en" true).1 = .ok ()) := by
  refine ⟨?_, ?_, ?_⟩
  · exact (c1_commit_path_ends_connection _ _ rfl rfl rfl true).1
  · exact (c1_commit_path_ends_connection _ _ rfl rfl rfl true).2.1
  · exact (c1_commit_path_ends_connection _ _ rfl rfl rfl false).2.2 "k" 16000 "en"

/-- C2 (confirmed): on a live session, `send_audio_chunk` with the gate
closed returns success, sends nothing, and leaves the whole client state
unchanged; with the gate open it marks `sent_since_open` and sends exactly
one `input_audio_chunk` message with `commit:false`. -/
theorem c2_closed_gate_send_is_silent_noop
    (st : ElevenLabsStreamingClient) (conn : StreamingConnection)
    (hc : st.connection = some conn) (halive : conn.is_alive = true)
    (pcm_data : List Nat) :
    (conn.is_transmitting = false →
      st.send_audio_chunk pcm_data = (.ok (), st, [])) ∧
    (conn.is_transmitting = true →
      st.send_audio_chunk pcm_data =
        (.ok (),
         { st with connection := some { conn with sent_since_open := true } },
         [WsMsg.text ⟨"input_audio_chunk", String.mk (base64Encode pcm_data), conn.sample_rate, false⟩])) := by
  constructor <;> intro hgate <;>
    simp [ElevenLabsStreamingClient.send_audio_chunk, hc, halive, hgate]

/-- C2 witness: a closed-gate send on a concrete live session is a silent
no-op, and an open-gate send on a concrete live session transmits. -/
theorem c2_closed_gate_send_is_silent_noop_witness :
    ((⟨some ⟨false, false, false, true, 16000, "pcm_16000"⟩, none⟩ : ElevenLabsStreamingClient).send_audio_chunk [1, 2] =
      (.ok (), ⟨some ⟨false, false, false, true, 16000, "pcm_16000"⟩, none⟩, [])) ∧
    ((⟨some ⟨true, false, false, true, 16000, "pcm_16000"⟩, none⟩ : ElevenLabsStreamingClient).send_audio_chunk [1, 2] =
      (.ok (), ⟨some ⟨true, true, false, true, 16000, "pcm_16000"⟩, none⟩,
       [WsMsg.text ⟨"input_audio_chunk", String.mk (base64Encode [1, 2]), 16000, false⟩])) := by
  refine ⟨?_, ?_⟩
  · exact (c2_closed_gate_send_is_silent_noop
      ⟨some ⟨false, false, false, true, 16000, "pcm_16000"⟩, none⟩
      ⟨false, false, false, true, 16000, "pcm_16000"⟩ rfl rfl [1, 2]).1 rfl
  · exact (c2_closed_gate_send_is_silent_noop
      ⟨some ⟨true, false, false, true, 16000, "pcm_16000"⟩, none⟩
      ⟨true, false, false, true, 16000, "pcm_16000"⟩ rfl rfl [1, 2]).2 rfl

/-- C3 (confirmed): in every reachable instrumented state, `sent_since_open`
is true only if `is_transmitting` has been true at some point since the last
`sent_since_open` reset (the observer `gate_true_since_reset`), and
`open_gate` on a live session resets `sent_since_open` to false and sets
`is_transmitting` in the same atomic step — the only reset per gate-open. -/
theorem c3_sent_since_open_invariant :
    (∀ gs : GState, GReachable gs → GateInv gs) ∧
    (∀ (st : ElevenLabsStreamingClient) (conn : StreamingConnection),
      st.connection = some conn → conn.is_alive = true →
      st.open_gate = (.ok (), { st with connection := some { conn with sent_since_open := false, is_transmitting := true } })) := by
  constructor
  · exact gateInv_reachable
  · intro st conn hc ha
    simp [ElevenLabsStreamingClient.open_gate, hc, ha]

/-- C3 witness: the invariant at the initial instrumented state, and the
`open_gate` effect on a concrete live session that had sent audio. -/
theorem c3_sent_since_open_invariant_witness :
    GateInv ⟨ElevenLabsStreamingClient.new, false⟩ ∧
    ((⟨some ⟨false, true, false, true, 16000, "pcm_16000"⟩, none⟩ : ElevenLabsStreamingClient).open_gate =
      (.ok (), ⟨some ⟨true, false, false, true, 16000, "pcm_16000"⟩, none⟩)) := by
  refine ⟨?_, ?_⟩
  · exact c3_sent_since_open_invariant.1 _ GReachable.init
  · exact c3_sent_since_open_invariant.2 _ ⟨false, true, false, true, 16000, "pcm_16000"⟩ rfl rfl

/-- C4 (corrected, counterexample): the claim fails because `connect` saves
`last_config` before the handshake.  Reach a state whose stored config is
keyA/16000/en through a successful turn; a `connect` with keyB/48000/de whose
handshake fails still overwrites the stored config with the failed attempt's
parameters. -/
theorem c4_counterexample_failed_handshake_overwrites_config :
    ((((((ElevenLabsStreamingClient.new.connect "keyA" 16000 "en" true).2.open_gate).2.send_audio_chunk [1]).2.1.close_gate_and_commit true).2.1).last_config = some ⟨"keyA", 16000, "en"⟩) ∧
    ((((((ElevenLabsStreamingClient.new.connect "keyA" 16000 "en" true).2.open_gate).2.send_audio_chunk [1]).2.1.close_gate_and_commit true).2.1.connect "keyB" 48000 "de" false).1 = .error "Failed to connect to ElevenLabs WebSocket") ∧
    ((((((ElevenLabsStreamingClient.new.connect "keyA" 16000 "en" true).2.open_gate).2.send_audio_chunk [1]).2.1.close_gate_and_commit true).2.1.connect "keyB" 48000 "de" false).2.last_config = some ⟨"keyB", 48000, "de"⟩) :=
  ⟨rfl, rfl, rfl⟩

/-- C4 (amended): `connect` persists the `ConnectionConfig` on every attempt
that passes the already-connected check, regardless of the handshake outcome;
only a `connect` rejected because a live connection exists leaves the client
(and so the stored config) unchanged. -/
theorem c4_config_saved_on_every_attempt
    (st : ElevenLabsStreamingClient) (k : String) (sr : Nat) (l : String)
    (handshakeOk : Bool) :
    (st.is_connected = false →
      (st.connect k sr l handshakeOk).2.last_config = some ⟨k, sr, l⟩) ∧
    (st.is_connected = true →
      (st.connect k sr l handshakeOk).1 = .error "Connection already exists. Disconnect first." ∧
      (st.connect k sr l handshakeOk).2 = st) := by
  rcases hc : st.connection with _ | conn <;>
    simp [ElevenLabsStreamingClient.is_connected, ElevenLabsStreamingClient.connect,
      ElevenLabsStreamingClient.connectAfterCheck, hc] <;>
    split_ifs <;> simp_all

/-- C4 witness: the amended statement at a fresh client (failed handshake
still saves the config) and at a concrete live session (rejected, state
unchanged). -/
theorem c4_config_saved_on_every_attempt_witness :
    ((ElevenLabsStreamingClient.new.connect "k" 16000 "en" false).2.last_config = some ⟨"k", 16000, "en"⟩) ∧
    (((⟨some ⟨false, false, false, true, 16000, "pcm_16000"⟩, none⟩ : ElevenLabsStreamingClient).connect "k" 16000 "en" true).1 =
      .error "Connection already exists. Disconnect first.") := by
  refine ⟨?_, ?_⟩
  · exact (c4_config_saved_on_every_attempt ElevenLabsStreamingClient.new "k" 16000 "en" false).1 rfl
  · exact ((c4_config_saved_on_every_attempt
      ⟨some ⟨false, false, false, true, 16000, "pcm_16000"⟩, none⟩
      "k" 16000 "en" true).2 rfl).1

/-- C5 (confirmed): on a live session with `has_audio_since_open()` false,
`close_gate_and_commit` sends zero network messages and returns success (the
kept session's gate is closed and `is_committing` ends up false). -/
theorem c5_no_audio_commit_short_circuit
    (st : ElevenLabsStreamingClient) (conn : StreamingConnection)
    (hc : st.connection = some conn) (halive : conn.is_alive = true)
    (hno : st.has_audio_since_open = false) (commitAck : Bool) :
    st.close_gate_and_commit commitAck =
      (.ok (),
       { st with connection := some { conn with is_transmitting := false, is_committing := false } },
       []) := by
  have hsent : conn.sent_since_open = false := by
    simpa [ElevenLabsStreamingClient.has_audio_since_open, hc] using hno
  simp [ElevenLabsStreamingClient.close_gate_and_commit, hc, halive, hsent]

/-- C5 witness: the short-circuit at a concrete live session with an open
gate and no audio sent. -/
theorem c5_no_audio_commit_short_circuit_witness :
    (⟨some ⟨true, false, false, true, 16000, "pcm_16000"⟩, none⟩ : ElevenLabsStreamingClient).close_gate_and_commit true =
      (.ok (), ⟨some ⟨false, false, false, true, 16000, "pcm_16000"⟩, none⟩, []) :=
  c5_no_audio_commit_short_circuit
    ⟨some ⟨true, false, false, true, 16000, "pcm_16000"⟩, none⟩
    ⟨true, false, false, true, 16000, "pcm_16000"⟩ rfl rfl rfl true

/-- C9 (confirmed): on a session object whose aliveness flag is false,
`send_audio_chunk` returns the "Connection is dead" error with no message and
no state change, regardless of the gate — the aliveness check precedes the
gate check. -/
theorem c9_dead_connection_error_precedes_gate_check
    (st : ElevenLabsStreamingClient) (conn : StreamingConnection)
    (hc : st.connection = some conn) (hdead : conn.is_alive = false)
    (pcm_data : List Nat) :
    st.send_audio_chunk pcm_data = (.error "Connection is dead", st, []) := by
  simp [ElevenLabsStreamingClient.send_audio_chunk, hc, hdead]

/-- C9 witness: a dead session with a closed gate yields the error, not the
closed-gate silent no-op. -/
theorem c9_dead_connection_error_precedes_gate_check_witness :
    (⟨some ⟨false, false, false, false, 16000, "pcm_16000"⟩, none⟩ : ElevenLabsStreamingClient).send_audio_chunk [0] =
      (.error "Connection is dead", ⟨some ⟨false, false, false, false, 16000, "pcm_16000"⟩, none⟩, []) :=
  c9_dead_connection_error_precedes_gate_check _ ⟨false, false, false, false, 16000, "pcm_16000"⟩ rfl rfl [0]

/-- C7 (corrected, counterexample): the claim's accepted set is wrong —
8-bit unsigned input is rejected at capture-start with the
"Unsupported sample format" error, though the claim lists it as accepted
(likewise I64, U32, U64). -/
theorem c7_counterexample_u8_rejected :
    build_streaming_input .U8 = .error "Unsupported sample format" :=
  rfl

/-- C7 (amended): capture start accepts exactly the sample formats
{I8, I16, I32, U16, F32, F64}, wiring a total per-sample converter for each;
every other format (I64, U8, U32, U64) is rejected as a configuration error
at capture-start time (each accepted format's conversion is a total function,
never a per-frame error). -/
theorem c7_accepted_format_set (sample_format : SampleFormat) :
    (∃ conv, build_streaming_input sample_format = .ok conv) ↔
      (sample_format = .I8 ∨ sample_format = .I16 ∨ sample_format = .I32 ∨
       sample_format = .U16 ∨ sample_format = .F32 ∨ sample_format = .F64) := by
  cases sample_format <;> simp [build_streaming_input]

/-- C8 (confirmed): for every frame of 1 to 65535 channels (cpal's channel
count is a `u16`) whose converted per-channel values are in `i16` range, the
wrapping `i32` accumulator computes the exact sum (no overflow even at the
extremes), the mono sample is the truncated-toward-zero integer average, it
lies in `i16` range, and it is emitted as exactly two little-endian bytes
that decode back to it. -/
theorem c8_downmix_integer_average_no_overflow (frame : List Int)
    (hb : ∀ x ∈ frame, -32768 ≤ x ∧ x ≤ 32767)
    (hlen1 : 1 ≤ frame.length) (hlen2 : frame.length ≤ 65535) :
    frameSum frame = frame.sum ∧
    frameToMono frame = Int.tdiv frame.sum (frame.length : Int) ∧
    (-32768 ≤ frameToMono frame ∧ frameToMono frame ≤ 32767) ∧
    (∃ b0 b1 : Nat, processFrame frame = [b0, b1] ∧ b0 < 256 ∧ b1 < 256 ∧
      wrap16 ((b0 : Int) + 256 * b1) = frameToMono frame) := by
  have hsum : frameSum frame = frame.sum := by
    unfold frameSum
    rw [foldl_wrap32_eq frame 0 hb (by omega) (by omega)]
    ring
  have hn : (0:Int) < (frame.length : Int) := by exact_mod_cast hlen1
  have hsb := list_sum_bounds frame hb
  have hdle : Int.tdiv frame.sum (frame.length : Int) ≤ 32767 :=
    tdiv_le_of_le_mul hn (by norm_num) hsb.2
  have hdge : -32768 ≤ Int.tdiv frame.sum (frame.length : Int) := by
    have h := neg_le_tdiv_of_le (s := frame.sum) (n := (frame.length : Int))
      (B := 32768) hn (by norm_num) (by linarith [hsb.1])
    omega
  have hmono : frameToMono frame = Int.tdiv frame.sum (frame.length : Int) := by
    unfold frameToMono
    rw [hsum]
    apply wrap16_eq_self <;> omega
  have hpf : processFrame frame = [(frameToMono frame % 2 ^ 16).toNat % 2 ^ 8,
      (frameToMono frame % 2 ^ 16).toNat / 2 ^ 8] := rfl
  refine ⟨hsum, hmono, by omega, ?_⟩
  refine ⟨_, _, hpf, by omega, by omega, ?_⟩
  have hm1 : -32768 ≤ frameToMono frame := by omega
  have hm2 : frameToMono frame ≤ 32767 := by omega
  unfold wrap16
  omega

/-- C8 witness: a concrete stereo frame at the `i16` extremes downmixes
without overflow to the truncated average. -/
theorem c8_downmix_integer_average_no_overflow_witness :
    frameSum [(32767 : Int), -32768] = List.sum [(32767 : Int), -32768] ∧
    frameToMono [(32767 : Int), -32768] = Int.tdiv (List.sum [(32767 : Int), -32768]) 2 := by
  have h := c8_downmix_integer_average_no_overflow [(32767 : Int), -32768]
    (by decide) (by decide) (by decide)
  exact ⟨h.1, by simpa using h.2.1⟩

/-- C10 (confirmed): `convert_f32_to_i16` is total on every `f32` input —
NaN, infinities and out-of-range values included — its output always lies in
[-32767, 32767] (never `i16` minimum -32768), inputs at least 1.0 map to
32767 and inputs at most -1.0 map to -32767. -/
theorem c10_float_converter_total_and_clamped (sample : F32) :
    (-32767 ≤ convert_f32_to_i16 sample ∧ convert_f32_to_i16 sample ≤ 32767) ∧
    (F32.geOne sample = true → convert_f32_to_i16 sample = 32767) ∧
    (F32.leNegOne sample = true → convert_f32_to_i16 sample = -32767) := by
  cases sample with
  | nan =>
    refine ⟨⟨by norm_num [convert_f32_to_i16, F32.clamp, F32.lt, F32.mul32767, F32.asI16],
            by norm_num [convert_f32_to_i16, F32.clamp, F32.lt, F32.mul32767, F32.asI16]⟩, ?_, ?_⟩ <;>
      intro h <;> simp [F32.geOne, F32.leNegOne] at h
  | posInf =>
    refine ⟨⟨?_, ?_⟩, ?_, ?_⟩ <;>
      norm_num [convert_f32_to_i16, F32.clamp, F32.lt, F32.mul32767, F32.asI16,
        F32.geOne, F32.leNegOne, ratTrunc]
  | negInf =>
    refine ⟨⟨?_, ?_⟩, ?_, ?_⟩ <;>
      norm_num [convert_f32_to_i16, F32.clamp, F32.lt, F32.mul32767, F32.asI16,
        F32.geOne, F32.leNegOne, ratTrunc]
  | fin q =>
    by_cases hlo : q < -1
    · have hg : ¬ (1 : ℚ) ≤ q := by linarith
      refine ⟨⟨?_, ?_⟩, ?_, ?_⟩ <;>
        norm_num [convert_f32_to_i16, F32.clamp, F32.lt, F32.mul32767, F32.asI16,
          F32.geOne, F32.leNegOne, ratTrunc, hlo, hg]
    · by_cases hhi : 1 < q
      · have hl : ¬ q ≤ (-1 : ℚ) := by linarith
        refine ⟨⟨?_, ?_⟩, ?_, ?_⟩ <;>
          norm_num [convert_f32_to_i16, F32.clamp, F32.lt, F32.mul32767, F32.asI16,
            F32.geOne, F32.leNegOne, ratTrunc, hlo, hhi, hl]
      · have h1 : (-1 : ℚ) ≤ q := by linarith
        have h2 : q ≤ 1 := by linarith
        have hmul1 : q * 32767 ≤ ((32767 : ℤ) : ℚ) := by push_cast; nlinarith
        have hmul2 : ((-32767 : ℤ) : ℚ) ≤ q * 32767 := by push_cast; nlinarith
        have ht1 : ratTrunc (q * 32767) ≤ 32767 := ratTrunc_le_of_le (by norm_num) hmul1
        have ht2 : -32767 ≤ ratTrunc (q * 32767) := by
          have := neg_le_ratTrunc_of_le (q := q * 32767) (B := 32767) (by norm_num)
            (by push_cast at hmul2 ⊢; linarith)
          omega
        have hconv : convert_f32_to_i16 (F32.fin q) = ratTrunc (q * 32767) := by
          simp [convert_f32_to_i16, F32.clamp, F32.lt, F32.mul32767, F32.asI16, hlo, hhi]
          omega
        refine ⟨⟨by omega, by omega⟩, ?_, ?_⟩
        · intro hg
          have hq1 : q = 1 := by
            simp [F32.geOne] at hg
            linarith
          subst hq1
          norm_num [convert_f32_to_i16, F32.clamp, F32.lt, F32.mul32767, F32.asI16, ratTrunc]
        · intro hl
          have hq1 : q = -1 := by
            simp [F32.leNegOne] at hl
            linarith
          subst hq1
          norm_num [convert_f32_to_i16, F32.clamp, F32.lt, F32.mul32767, F32.asI16, ratTrunc]

/-- C10 witness: the converter at concrete out-of-range inputs 2.0 and
-3.5. -/
theorem c10_float_converter_total_and_clamped_witness :
    convert_f32_to_i16 (F32.fin 2) = 32767 ∧
    convert_f32_to_i16 (F32.fin (-7 / 2)) = -32767 := by
  refine ⟨?_, ?_⟩
  · exact (c10_float_converter_total_and_clamped (F32.fin 2)).2.1 (by norm_num [F32.geOne])
  · exact (c10_float_converter_total_and_clamped (F32.fin (-7 / 2))).2.2 (by norm_num [F32.leNegOne])

end EasyDictate
